import Mathlib

/-!
Shallow embedding of the DNSPod client (`src/dnspod/api.rs`) of libdns-rs.

The embedded parts are the pure kernels of the client:
* the form-encoded request bodies each operation builds (`build_form_params`
  and the per-operation parameter lists),
* the JSON decoding of each response shape, following serde semantics for
  the derived `Deserialize` implementations (required fields must be present
  with the declared type; `Option` fields decode JSON `null` or an absent
  key to `none`; unknown keys are ignored),
* the status-envelope validation each operation performs after decoding
  (the `if result.status.code != "1"` blocks), and
* the accessors `Domain::get_ttl`, `Record::get_ttl`, `Record::get_type`,
  `RecordInfo::get_ttl`.

Rust `u32`/`u16`/`u64` parameters are modelled as `Nat`; the operations only
ever render them with `to_string`, which agrees with `toString` on `Nat`.
The transport (reqwest) is external; the payload of `DnspodError::Request` is the
transport error and is modelled as a bare constructor.
-/

namespace Dnspod

/-- A JSON value, as needed to model serde_json decoding of the
responses sent by the provider. Numbers are restricted to integers, which covers the numeric
fields the claims concern (record ids). -/
inductive Json where
  | null : Json
  | bool (b : Bool) : Json
  | num (n : Int) : Json
  | str (s : String) : Json
  | arr (elems : List Json) : Json
  | obj (fields : List (String × Json)) : Json
  deriving Repr

/-- The status envelope present on every response
(`struct Status { code, message, created_at }`). -/
structure Status where
  code : String
  message : String
  created_at : Option String
  deriving Repr, DecidableEq

/-- Response carrying only the envelope (`struct StatusResponse`). -/
structure StatusResponse where
  status : Status
  deriving Repr, DecidableEq

/-- A domain as returned by `Domain.List` (`struct Domain`). -/
structure Domain where
  id : String
  name : String
  punycode : Option String
  grade : Option String
  grade_title : Option String
  status : Option String
  ext_status : Option String
  records : Option String
  group_id : Option String
  is_mark : Option String
  remark : Option String
  is_vip : Option String
  searchengine_push : Option String
  beian : Option String
  created_on : Option String
  updated_on : Option String
  ttl : Option String
  owner : Option String
  user_id : Option String
  deriving Repr, DecidableEq

/-- Pagination/count info of `Domain.List` (`struct DomainListInfo`). -/
structure DomainListInfo where
  domain_total : Option Nat
  all_total : Option Nat
  mine_total : Option Nat
  share_total : Option Nat
  vip_total : Option Nat
  ismark_total : Option Nat
  pause_total : Option Nat
  error_total : Option Nat
  lock_total : Option Nat
  spam_total : Option Nat
  vip_expire : Option Nat
  share_out_total : Option Nat
  deriving Repr, DecidableEq

/-- Response of `Domain.List` (`struct DomainListResponse`). -/
structure DomainListResponse where
  status : Status
  info : Option DomainListInfo
  domains : Option (List Domain)
  deriving Repr, DecidableEq

/-- Response of `Domain.Info` (`struct DomainInfoResponse`). -/
structure DomainInfoResponse where
  status : Status
  domain : Domain
  deriving Repr, DecidableEq

/-- Payload of `Domain.Create` (`struct DomainCreateDomain`). -/
structure DomainCreateDomain where
  id : String
  punycode : Option String
  domain : Option String
  deriving Repr, DecidableEq

/-- Response of `Domain.Create` (`struct DomainCreateResponse`). -/
structure DomainCreateResponse where
  status : Status
  domain : DomainCreateDomain
  deriving Repr, DecidableEq

/-- A record as returned by `Record.List` (`struct Record`); the `type` JSON
key is renamed to the `record_type` field by `#[serde(rename = "type")]`. -/
structure Record where
  id : String
  name : String
  line : Option String
  record_type : Option String
  ttl : Option String
  value : String
  mx : Option String
  enabled : Option String
  status : Option String
  monitor_status : Option String
  remark : Option String
  updated_on : Option String
  hold : Option String
  deriving Repr, DecidableEq

/-- A record as returned by `Record.Info` (`struct RecordInfo`). -/
structure RecordInfo where
  id : String
  sub_domain : String
  record_type : String
  record_line : String
  value : String
  mx : Option String
  ttl : Option String
  enabled : Option String
  monitor_status : Option String
  remark : Option String
  updated_on : Option String
  domain_id : Option String
  deriving Repr, DecidableEq

/-- Count info of `Record.List` (`struct RecordListInfo`). -/
structure RecordListInfo where
  sub_domains : Option String
  record_total : Option String
  deriving Repr, DecidableEq

/-- Domain block of `Record.List` (`struct RecordListDomain`). -/
structure RecordListDomain where
  id : String
  name : String
  punycode : Option String
  grade : Option String
  owner : Option String
  deriving Repr, DecidableEq

/-- Response of `Record.List` (`struct RecordListResponse`); `domain`,
`info` and `records` are all optional with a serde default. -/
structure RecordListResponse where
  status : Status
  domain : Option RecordListDomain
  info : Option RecordListInfo
  records : Option (List Record)
  deriving Repr, DecidableEq

/-- Domain block of `Record.Info` (`struct RecordInfoDomain`). -/
structure RecordInfoDomain where
  id : String
  domain : String
  domain_grade : Option String
  deriving Repr, DecidableEq

/-- Response of `Record.Info` (`struct RecordInfoResponse`). -/
structure RecordInfoResponse where
  status : Status
  domain : RecordInfoDomain
  record : RecordInfo
  deriving Repr, DecidableEq

/-- Payload of `Record.Create` (`struct RecordCreateRecord`). -/
structure RecordCreateRecord where
  id : String
  name : String
  status : Option String
  deriving Repr, DecidableEq

/-- Response of `Record.Create` (`struct RecordCreateResponse`). -/
structure RecordCreateResponse where
  status : Status
  record : RecordCreateRecord
  deriving Repr, DecidableEq

/-- Payload of `Record.Modify` (`struct RecordModifyRecord`); `id` is a raw
`serde_json::Value` because the provider returns it as a string or a
number. -/
structure RecordModifyRecord where
  id : Json
  name : String
  value : Option String
  status : Option String
  deriving Repr

/-- Response of `Record.Modify` (`struct RecordModifyResponse`). -/
structure RecordModifyResponse where
  status : Status
  record : RecordModifyRecord
  deriving Repr

/-- Payload of `Record.Status` (`struct RecordStatusRecord`); `id` is a raw
`serde_json::Value`, as in `RecordModifyRecord`. -/
structure RecordStatusRecord where
  id : Json
  name : String
  status : Option String
  deriving Repr

/-- Response of `Record.Status` (`struct RecordStatusResponse`). -/
structure RecordStatusResponse where
  status : Status
  record : RecordStatusRecord
  deriving Repr

/-- The client error type (`enum DnspodError`). The payload of the `Request`
variant is the transport error (`reqwest::Error`), external to the
embedded core, so it is modelled as a bare constructor. -/
inductive DnspodError where
  | Request : DnspodError
  | Api : Status → DnspodError
  deriving Repr, DecidableEq

/-- Rust `str::parse::<u64>`: an optional leading plus sign, then one or
more ASCII digits, with overflow beyond `u64::MAX` rejected. -/
def parse_u64 (s : String) : Option Nat :=
  let core : List Char → Option Nat := fun cs =>
    if cs.isEmpty then none
    else
      cs.foldl
        (fun acc c =>
          acc.bind fun n =>
            if c.isDigit then
              let m := n * 10 + (c.toNat - 48)
              if m < 2 ^ 64 then some m else none
            else none)
        (some 0)
  match s.toList with
  | '+' :: rest => core rest
  | cs => core cs

/-- `Domain::get_ttl`: parse the optional `ttl` string, defaulting to 600. -/
def Domain.get_ttl (d : Domain) : Nat :=
  (d.ttl.bind parse_u64).getD 600

/-- `Record::get_ttl`: parse the optional `ttl` string, defaulting to the
caller-supplied `default_ttl`. -/
def Record.get_ttl (r : Record) (default_ttl : Nat) : Nat :=
  (r.ttl.bind parse_u64).getD default_ttl

/-- `Record::get_type`: the optional `type` field, defaulting to "A". -/
def Record.get_type (r : Record) : String :=
  r.record_type.getD "A"

/-- `RecordInfo::get_ttl`: parse the optional `ttl` string, defaulting to
the caller-supplied `default_ttl`. -/
def RecordInfo.get_ttl (r : RecordInfo) (default_ttl : Nat) : Nat :=
  (r.ttl.bind parse_u64).getD default_ttl

/-! ### Request encoding -/

/-- `Client::build_form_params`: start from
`login_token=<token>&format=json` and append `&key=value` for each
parameter in order. -/
def build_form_params (login_token : String) (params : List (String × String)) : String :=
  params.foldl (fun form kv => form ++ "&" ++ kv.1 ++ "=" ++ kv.2)
    ("login_token=" ++ login_token ++ "&format=json")

/-- Parameter list built by `list_domains`: `offset` then `length`, each
pushed only when supplied. -/
def list_domains_params (offset length : Option Nat) : List (String × String) :=
  (match offset with
   | some o => [("offset", toString o)]
   | none => []) ++
  (match length with
   | some l => [("length", toString l)]
   | none => [])

/-- Request body of `list_domains` (`Domain.List`). -/
def list_domains_body (token : String) (offset length : Option Nat) : String :=
  build_form_params token (list_domains_params offset length)

/-- Request body of `get_domain` (`Domain.Info` by id). -/
def get_domain_body (token domain_id : String) : String :=
  build_form_params token [("domain_id", domain_id)]

/-- Request body of `get_domain_by_name` (`Domain.Info` by name). -/
def get_domain_by_name_body (token domain : String) : String :=
  build_form_params token [("domain", domain)]

/-- Request body of `create_domain` (`Domain.Create`). -/
def create_domain_body (token domain : String) : String :=
  build_form_params token [("domain", domain)]

/-- Request body of `delete_domain` (`Domain.Remove`). -/
def delete_domain_body (token domain_id : String) : String :=
  build_form_params token [("domain_id", domain_id)]

/-- Parameter list built by `list_records`: `domain_id`, then `offset` and
`length` pushed only when supplied. -/
def list_records_params (domain_id : String) (offset length : Option Nat) :
    List (String × String) :=
  [("domain_id", domain_id)] ++
  (match offset with
   | some o => [("offset", toString o)]
   | none => []) ++
  (match length with
   | some l => [("length", toString l)]
   | none => [])

/-- Request body of `list_records` (`Record.List`); the source folds the
parameter list onto `login_token=<token>&format=json` directly. -/
def list_records_body (token domain_id : String) (offset length : Option Nat) : String :=
  (list_records_params domain_id offset length).foldl
    (fun acc kv => acc ++ "&" ++ kv.1 ++ "=" ++ kv.2)
    ("login_token=" ++ token ++ "&format=json")

/-- Request body of `get_record` (`Record.Info`). -/
def get_record_body (token domain_id record_id : String) : String :=
  build_form_params token [("domain_id", domain_id), ("record_id", record_id)]

/-- Parameter list built by `create_record`: the five required parameters
in order, then `mx` and `ttl` pushed only when supplied. -/
def create_record_params (domain_id sub_domain record_type record_line value : String)
    (mx ttl : Option Nat) : List (String × String) :=
  [("domain_id", domain_id), ("sub_domain", sub_domain), ("record_type", record_type),
    ("record_line", record_line), ("value", value)] ++
  (match mx with
   | some m => [("mx", toString m)]
   | none => []) ++
  (match ttl with
   | some t => [("ttl", toString t)]
   | none => [])

/-- Request body of `create_record` (`Record.Create`). -/
def create_record_body (token domain_id sub_domain record_type record_line value : String)
    (mx ttl : Option Nat) : String :=
  (create_record_params domain_id sub_domain record_type record_line value mx ttl).foldl
    (fun acc kv => acc ++ "&" ++ kv.1 ++ "=" ++ kv.2)
    ("login_token=" ++ token ++ "&format=json")

/-- Parameter list built by `modify_record`: the six required parameters in
order, then `mx` and `ttl` pushed only when supplied. -/
def modify_record_params
    (domain_id record_id sub_domain record_type record_line value : String)
    (mx ttl : Option Nat) : List (String × String) :=
  [("domain_id", domain_id), ("record_id", record_id), ("sub_domain", sub_domain),
    ("record_type", record_type), ("record_line", record_line), ("value", value)] ++
  (match mx with
   | some m => [("mx", toString m)]
   | none => []) ++
  (match ttl with
   | some t => [("ttl", toString t)]
   | none => [])

/-- Request body of `modify_record` (`Record.Modify`). -/
def modify_record_body
    (token domain_id record_id sub_domain record_type record_line value : String)
    (mx ttl : Option Nat) : String :=
  (modify_record_params domain_id record_id sub_domain record_type record_line value
      mx ttl).foldl
    (fun acc kv => acc ++ "&" ++ kv.1 ++ "=" ++ kv.2)
    ("login_token=" ++ token ++ "&format=json")

/-- Request body of `delete_record` (`Record.Remove`). -/
def delete_record_body (token domain_id record_id : String) : String :=
  build_form_params token [("domain_id", domain_id), ("record_id", record_id)]

/-- Request body of `set_record_status` (`Record.Status`). -/
def set_record_status_body (token domain_id record_id status : String) : String :=
  build_form_params token
    [("domain_id", domain_id), ("record_id", record_id), ("status", status)]

/-! ### Response decoding

serde semantics for the derived `Deserialize` implementations: a struct
decodes from a JSON object; required fields must be present with the
declared type; a field of type `Option T` decodes an absent key or a JSON
`null` to `none` and any other value through the decoder for `T`; a field of type
`serde_json::Value` accepts any present JSON value; unknown keys are
ignored. -/

/-- Decode a required JSON string field value. -/
def decodeString : Json → Option String
  | .str s => some s
  | _ => none

/-- Decode an optional struct field: an absent key or a JSON `null` gives
`none`; any other value must decode through `dec`. -/
def decodeOptField (fields : List (String × Json)) (key : String)
    (dec : Json → Option α) : Option (Option α) :=
  match fields.lookup key with
  | none => some none
  | some .null => some none
  | some v => (dec v).map some

/-- Decode `struct Status`. -/
def decodeStatus : Json → Option Status
  | .obj fields => do
    let code ← (fields.lookup "code").bind decodeString
    let message ← (fields.lookup "message").bind decodeString
    let created_at ← decodeOptField fields "created_at" decodeString
    pure ⟨code, message, created_at⟩
  | _ => none

/-- Decode `struct Record`; the `record_type` field reads the JSON key
`type` (`#[serde(rename = "type")]`). -/
def decodeRecord : Json → Option Record
  | .obj fields => do
    let id ← (fields.lookup "id").bind decodeString
    let name ← (fields.lookup "name").bind decodeString
    let line ← decodeOptField fields "line" decodeString
    let record_type ← decodeOptField fields "type" decodeString
    let ttl ← decodeOptField fields "ttl" decodeString
    let value ← (fields.lookup "value").bind decodeString
    let mx ← decodeOptField fields "mx" decodeString
    let enabled ← decodeOptField fields "enabled" decodeString
    let status ← decodeOptField fields "status" decodeString
    let monitor_status ← decodeOptField fields "monitor_status" decodeString
    let remark ← decodeOptField fields "remark" decodeString
    let updated_on ← decodeOptField fields "updated_on" decodeString
    let hold ← decodeOptField fields "hold" decodeString
    pure ⟨id, name, line, record_type, ttl, value, mx, enabled, status,
      monitor_status, remark, updated_on, hold⟩
  | _ => none

/-- Decode `struct RecordListInfo`. -/
def decodeRecordListInfo : Json → Option RecordListInfo
  | .obj fields => do
    let sub_domains ← decodeOptField fields "sub_domains" decodeString
    let record_total ← decodeOptField fields "record_total" decodeString
    pure ⟨sub_domains, record_total⟩
  | _ => none

/-- Decode `struct RecordListDomain`. -/
def decodeRecordListDomain : Json → Option RecordListDomain
  | .obj fields => do
    let id ← (fields.lookup "id").bind decodeString
    let name ← (fields.lookup "name").bind decodeString
    let punycode ← decodeOptField fields "punycode" decodeString
    let grade ← decodeOptField fields "grade" decodeString
    let owner ← decodeOptField fields "owner" decodeString
    pure ⟨id, name, punycode, grade, owner⟩
  | _ => none

/-- Decode a `Vec<Record>` field value. -/
def decodeRecordList : Json → Option (List Record)
  | .arr elems => elems.mapM decodeRecord
  | _ => none

/-- Decode `struct RecordListResponse`: `status` is required; `domain`,
`info` and `records` are optional. -/
def decodeRecordListResponse : Json → Option RecordListResponse
  | .obj fields => do
    let status ← (fields.lookup "status").bind decodeStatus
    let domain ← decodeOptField fields "domain" decodeRecordListDomain
    let info ← decodeOptField fields "info" decodeRecordListInfo
    let records ← decodeOptField fields "records" decodeRecordList
    pure ⟨status, domain, info, records⟩
  | _ => none

/-- Decode `struct RecordModifyRecord`: `id` is a `serde_json::Value`, so
any present JSON value is accepted verbatim. -/
def decodeRecordModifyRecord : Json → Option RecordModifyRecord
  | .obj fields => do
    let id ← fields.lookup "id"
    let name ← (fields.lookup "name").bind decodeString
    let value ← decodeOptField fields "value" decodeString
    let status ← decodeOptField fields "status" decodeString
    pure ⟨id, name, value, status⟩
  | _ => none

/-- Decode `struct RecordModifyResponse`. -/
def decodeRecordModifyResponse : Json → Option RecordModifyResponse
  | .obj fields => do
    let status ← (fields.lookup "status").bind decodeStatus
    let record ← (fields.lookup "record").bind decodeRecordModifyRecord
    pure ⟨status, record⟩
  | _ => none

/-- Decode `struct RecordStatusRecord`: `id` is a `serde_json::Value`, so
any present JSON value is accepted verbatim. -/
def decodeRecordStatusRecord : Json → Option RecordStatusRecord
  | .obj fields => do
    let id ← fields.lookup "id"
    let name ← (fields.lookup "name").bind decodeString
    let status ← decodeOptField fields "status" decodeString
    pure ⟨id, name, status⟩
  | _ => none

/-- Decode `struct RecordStatusResponse`. -/
def decodeRecordStatusResponse : Json → Option RecordStatusResponse
  | .obj fields => do
    let status ← (fields.lookup "status").bind decodeStatus
    let record ← (fields.lookup "record").bind decodeRecordStatusRecord
    pure ⟨status, record⟩
  | _ => none

/-- Modelled from the spec: retrieving the polymorphic record id as text.
The repository stores the id as a raw `serde_json::Value` and the sources
under src/ contain no normalizing accessor; the spec requires that after
decoding "the id must be retrievable as text", whether the provider sent a
JSON string or a JSON number. A string is its own text; a number is
rendered in decimal. -/
def jsonIdText : Json → Option String
  | .str s => some s
  | .num n => some (toString n)
  | _ => none

/-! ### Status-envelope validation

Each operation decodes the response and then runs the
`if result.status.code != "1"` block; these functions are those blocks. -/

/-- Validation step of `list_domains` (api.rs lines 75-79). -/
def list_domains_validate (result : DomainListResponse) :
    Except DnspodError DomainListResponse :=
  if result.status.code ≠ "1" then .error (.Api result.status) else .ok result

/-- Validation step of `get_domain` (api.rs lines 95-99). -/
def get_domain_validate (result : DomainInfoResponse) :
    Except DnspodError DomainInfoResponse :=
  if result.status.code ≠ "1" then .error (.Api result.status) else .ok result

/-- Validation step of `get_domain_by_name` (api.rs lines 118-122). -/
def get_domain_by_name_validate (result : DomainInfoResponse) :
    Except DnspodError DomainInfoResponse :=
  if result.status.code ≠ "1" then .error (.Api result.status) else .ok result

/-- Validation step of `create_domain` (api.rs lines 138-142). -/
def create_domain_validate (result : DomainCreateResponse) :
    Except DnspodError DomainCreateResponse :=
  if result.status.code ≠ "1" then .error (.Api result.status) else .ok result

/-- Validation step of `delete_domain` (api.rs lines 158-162). -/
def delete_domain_validate (result : StatusResponse) :
    Except DnspodError StatusResponse :=
  if result.status.code ≠ "1" then .error (.Api result.status) else .ok result

/-- Validation step of `list_records` (api.rs lines 197-210): code "10"
(empty result) is rebuilt as success with `records` forced to an empty
list; any other non-"1" code is an API error. -/
def list_records_validate (result : RecordListResponse) :
    Except DnspodError RecordListResponse :=
  if result.status.code ≠ "1" then
    if result.status.code = "10" then
      .ok { status := result.status, domain := result.domain, info := result.info,
            records := some [] }
    else .error (.Api result.status)
  else .ok result

/-- Validation step of `get_record` (api.rs lines 230-234). -/
def get_record_validate (result : RecordInfoResponse) :
    Except DnspodError RecordInfoResponse :=
  if result.status.code ≠ "1" then .error (.Api result.status) else .ok result

/-- Validation step of `create_record` (api.rs lines 277-281). -/
def create_record_validate (result : RecordCreateResponse) :
    Except DnspodError RecordCreateResponse :=
  if result.status.code ≠ "1" then .error (.Api result.status) else .ok result

/-- Validation step of `modify_record` (api.rs lines 326-330). -/
def modify_record_validate (result : RecordModifyResponse) :
    Except DnspodError RecordModifyResponse :=
  if result.status.code ≠ "1" then .error (.Api result.status) else .ok result

/-- Validation step of `delete_record` (api.rs lines 350-354). -/
def delete_record_validate (result : StatusResponse) :
    Except DnspodError StatusResponse :=
  if result.status.code ≠ "1" then .error (.Api result.status) else .ok result

/-- Validation step of `set_record_status` (api.rs lines 379-383). -/
def set_record_status_validate (result : RecordStatusResponse) :
    Except DnspodError RecordStatusResponse :=
  if result.status.code ≠ "1" then .error (.Api result.status) else .ok result

/-! ### Specification-side helpers and samples -/

/-- Concatenation of `&key=value` segments, used to state what a form body
looks like. -/
def joinParams : List (String × String) → String
  | [] => ""
  | kv :: rest => "&" ++ kv.1 ++ "=" ++ kv.2 ++ joinParams rest

/-- The `&key=value` segment contributed by an optional numeric parameter,
empty when the parameter is absent. -/
def optSeg (key : String) : Option Nat → String
  | some n => "&" ++ key ++ "=" ++ toString n
  | none => ""

/-- Folding `&key=value` segments onto any initial string appends
`joinParams` of the parameter list. -/
theorem foldl_form_eq (ps : List (String × String)) (init : String) :
    ps.foldl (fun form kv => form ++ "&" ++ kv.1 ++ "=" ++ kv.2) init =
      init ++ joinParams ps := by
  induction ps generalizing init with
  | nil => simp [joinParams]
  | cons kv rest ih =>
    rw [List.foldl_cons, ih]
    simp [joinParams, String.append_assoc]

/-- `build_form_params` is the fixed token/format pair followed by the
`&key=value` segments in order. -/
theorem build_form_params_eq (token : String) (ps : List (String × String)) :
    build_form_params token ps =
      "login_token=" ++ token ++ "&format=json" ++ joinParams ps := by
  rw [build_form_params, foldl_form_eq]

/-- A status envelope with the given code, for concrete evaluations. -/
def mkStatus (c : String) : Status := ⟨c, "msg", none⟩

/-- A concrete domain payload for concrete evaluations. -/
def sampleDomain : Domain :=
  ⟨"1", "example.com", none, none, none, none, none, none, none, none, none,
    none, none, none, none, none, none, none, none⟩

/-- A concrete `Domain.List` response with the given status code. -/
def sampleDomainListResponse (c : String) : DomainListResponse :=
  ⟨mkStatus c, none, none⟩

/-- A concrete `Domain.Info` response with the given status code. -/
def sampleDomainInfoResponse (c : String) : DomainInfoResponse :=
  ⟨mkStatus c, sampleDomain⟩

/-- A concrete `Domain.Create` response with the given status code. -/
def sampleDomainCreateResponse (c : String) : DomainCreateResponse :=
  ⟨mkStatus c, ⟨"1", none, none⟩⟩

/-- A concrete envelope-only response with the given status code. -/
def sampleStatusResponse (c : String) : StatusResponse :=
  ⟨mkStatus c⟩

/-- A concrete `Record.List` response with the given status code and no
optional payload fields. -/
def sampleRecordListResponse (c : String) : RecordListResponse :=
  ⟨mkStatus c, none, none, none⟩

/-- A concrete `Record.Info` response with the given status code. -/
def sampleRecordInfoResponse (c : String) : RecordInfoResponse :=
  ⟨mkStatus c, ⟨"1", "example.com", none⟩,
    ⟨"100", "www", "A", "default", "1.2.3.4", none, none, none, none, none,
      none, none⟩⟩

/-- A concrete `Record.Create` response with the given status code. -/
def sampleRecordCreateResponse (c : String) : RecordCreateResponse :=
  ⟨mkStatus c, ⟨"100", "www", none⟩⟩

/-- A concrete `Record.Modify` response with the given status code. -/
def sampleRecordModifyResponse (c : String) : RecordModifyResponse :=
  ⟨mkStatus c, ⟨.str "100", "www", none, none⟩⟩

/-- A concrete `Record.Status` response with the given status code. -/
def sampleRecordStatusResponse (c : String) : RecordStatusResponse :=
  ⟨mkStatus c, ⟨.str "100", "www", none⟩⟩

/-- A concrete record with the given optional `ttl` and `type` fields. -/
def sampleRecord (ttl record_type : Option String) : Record :=
  ⟨"100", "www", none, record_type, ttl, "1.2.3.4", none, none, none, none,
    none, none, none⟩

/-- A concrete record-info payload with the given optional `ttl` field. -/
def sampleRecordInfo (ttl : Option String) : RecordInfo :=
  ⟨"100", "www", "A", "default", "1.2.3.4", none, ttl, none, none, none,
    none, none⟩

/-- A concrete domain with the given optional `ttl` field. -/
def sampleDomainTtl (ttl : Option String) : Domain :=
  ⟨"1", "example.com", none, none, none, none, none, none, none, none, none,
    none, none, none, none, none, ttl, none, none⟩

/-! ### Claims -/

/-- C1: for the record-listing operation, every decoded response whose
status code is "10" yields success in which `records` is forced to
`some []` and `domain` and `info` are returned exactly as decoded. -/
theorem list_records_code10_success (r : RecordListResponse)
    (h : r.status.code = "10") :
    list_records_validate r = .ok ⟨r.status, r.domain, r.info, some []⟩ := by
  simp [list_records_validate, h]

/-- Witness for C1 at a concrete code-"10" response with no optional
payload fields. -/
theorem list_records_code10_success_witness :
    list_records_validate (sampleRecordListResponse "10") =
      .ok ⟨mkStatus "10", none, none, some []⟩ :=
  list_records_code10_success (sampleRecordListResponse "10") rfl

/-- C2: for every operation, a decoded response whose status code is not
"1" (and, for `list_records` only, also not "10") yields an `Api` error
carrying exactly the status envelope of the response; in particular code "10"
on any operation other than record listing is such a failure. -/
theorem non_success_codes_yield_api_error
    (r1 : DomainListResponse) (r2 r3 : DomainInfoResponse)
    (r4 : DomainCreateResponse) (r5 : StatusResponse)
    (r6 : RecordListResponse) (r7 : RecordInfoResponse)
    (r8 : RecordCreateResponse) (r9 : RecordModifyResponse)
    (r10 : StatusResponse) (r11 : RecordStatusResponse) :
    (r1.status.code ≠ "1" → list_domains_validate r1 = .error (.Api r1.status)) ∧
    (r2.status.code ≠ "1" → get_domain_validate r2 = .error (.Api r2.status)) ∧
    (r3.status.code ≠ "1" →
      get_domain_by_name_validate r3 = .error (.Api r3.status)) ∧
    (r4.status.code ≠ "1" → create_domain_validate r4 = .error (.Api r4.status)) ∧
    (r5.status.code ≠ "1" → delete_domain_validate r5 = .error (.Api r5.status)) ∧
    (r6.status.code ≠ "1" → r6.status.code ≠ "10" →
      list_records_validate r6 = .error (.Api r6.status)) ∧
    (r7.status.code ≠ "1" → get_record_validate r7 = .error (.Api r7.status)) ∧
    (r8.status.code ≠ "1" → create_record_validate r8 = .error (.Api r8.status)) ∧
    (r9.status.code ≠ "1" → modify_record_validate r9 = .error (.Api r9.status)) ∧
    (r10.status.code ≠ "1" → delete_record_validate r10 = .error (.Api r10.status)) ∧
    (r11.status.code ≠ "1" →
      set_record_status_validate r11 = .error (.Api r11.status)) := by
  refine ⟨?_, ?_, ?_, ?_, ?_, ?_, ?_, ?_, ?_, ?_, ?_⟩ <;> intro h
  · simp [list_domains_validate, h]
  · simp [get_domain_validate, h]
  · simp [get_domain_by_name_validate, h]
  · simp [create_domain_validate, h]
  · simp [delete_domain_validate, h]
  · intro h10; simp [list_records_validate, h, h10]
  · simp [get_record_validate, h]
  · simp [create_record_validate, h]
  · simp [modify_record_validate, h]
  · simp [delete_record_validate, h]
  · simp [set_record_status_validate, h]

/-- Witness for C2: code "10" on every operation other than record
listing, and code "2" on record listing, each yield an `Api` error. -/
theorem non_success_codes_yield_api_error_witness :
    list_domains_validate (sampleDomainListResponse "10") =
      .error (.Api (mkStatus "10")) ∧
    get_domain_validate (sampleDomainInfoResponse "10") =
      .error (.Api (mkStatus "10")) ∧
    get_domain_by_name_validate (sampleDomainInfoResponse "10") =
      .error (.Api (mkStatus "10")) ∧
    create_domain_validate (sampleDomainCreateResponse "10") =
      .error (.Api (mkStatus "10")) ∧
    delete_domain_validate (sampleStatusResponse "10") =
      .error (.Api (mkStatus "10")) ∧
    list_records_validate (sampleRecordListResponse "2") =
      .error (.Api (mkStatus "2")) ∧
    get_record_validate (sampleRecordInfoResponse "10") =
      .error (.Api (mkStatus "10")) ∧
    create_record_validate (sampleRecordCreateResponse "10") =
      .error (.Api (mkStatus "10")) ∧
    modify_record_validate (sampleRecordModifyResponse "10") =
      .error (.Api (mkStatus "10")) ∧
    delete_record_validate (sampleStatusResponse "10") =
      .error (.Api (mkStatus "10")) ∧
    set_record_status_validate (sampleRecordStatusResponse "10") =
      .error (.Api (mkStatus "10")) := by
  have h := non_success_codes_yield_api_error (sampleDomainListResponse "10")
    (sampleDomainInfoResponse "10") (sampleDomainInfoResponse "10")
    (sampleDomainCreateResponse "10") (sampleStatusResponse "10")
    (sampleRecordListResponse "2") (sampleRecordInfoResponse "10")
    (sampleRecordCreateResponse "10") (sampleRecordModifyResponse "10")
    (sampleStatusResponse "10") (sampleRecordStatusResponse "10")
  exact ⟨h.1 (by decide), h.2.1 (by decide), h.2.2.1 (by decide),
    h.2.2.2.1 (by decide), h.2.2.2.2.1 (by decide),
    h.2.2.2.2.2.1 (by decide) (by decide), h.2.2.2.2.2.2.1 (by decide),
    h.2.2.2.2.2.2.2.1 (by decide), h.2.2.2.2.2.2.2.2.1 (by decide),
    h.2.2.2.2.2.2.2.2.2.1 (by decide), h.2.2.2.2.2.2.2.2.2.2 (by decide)⟩

/-- C3: for every operation, a decoded response whose status code is "1"
yields success returning the decoded response unchanged, every payload
field and the status envelope included. -/
theorem code1_returns_decoded_response
    (r1 : DomainListResponse) (r2 r3 : DomainInfoResponse)
    (r4 : DomainCreateResponse) (r5 : StatusResponse)
    (r6 : RecordListResponse) (r7 : RecordInfoResponse)
    (r8 : RecordCreateResponse) (r9 : RecordModifyResponse)
    (r10 : StatusResponse) (r11 : RecordStatusResponse) :
    (r1.status.code = "1" → list_domains_validate r1 = .ok r1) ∧
    (r2.status.code = "1" → get_domain_validate r2 = .ok r2) ∧
    (r3.status.code = "1" → get_domain_by_name_validate r3 = .ok r3) ∧
    (r4.status.code = "1" → create_domain_validate r4 = .ok r4) ∧
    (r5.status.code = "1" → delete_domain_validate r5 = .ok r5) ∧
    (r6.status.code = "1" → list_records_validate r6 = .ok r6) ∧
    (r7.status.code = "1" → get_record_validate r7 = .ok r7) ∧
    (r8.status.code = "1" → create_record_validate r8 = .ok r8) ∧
    (r9.status.code = "1" → modify_record_validate r9 = .ok r9) ∧
    (r10.status.code = "1" → delete_record_validate r10 = .ok r10) ∧
    (r11.status.code = "1" → set_record_status_validate r11 = .ok r11) := by
  refine ⟨?_, ?_, ?_, ?_, ?_, ?_, ?_, ?_, ?_, ?_, ?_⟩ <;> intro h
  · simp [list_domains_validate, h]
  · simp [get_domain_validate, h]
  · simp [get_domain_by_name_validate, h]
  · simp [create_domain_validate, h]
  · simp [delete_domain_validate, h]
  · simp [list_records_validate, h]
  · simp [get_record_validate, h]
  · simp [create_record_validate, h]
  · simp [modify_record_validate, h]
  · simp [delete_record_validate, h]
  · simp [set_record_status_validate, h]

/-- Witness for C3: the validation of every operation returns the decoded
code-"1" response unchanged. -/
theorem code1_returns_decoded_response_witness :
    list_domains_validate (sampleDomainListResponse "1") =
      .ok (sampleDomainListResponse "1") ∧
    get_domain_validate (sampleDomainInfoResponse "1") =
      .ok (sampleDomainInfoResponse "1") ∧
    get_domain_by_name_validate (sampleDomainInfoResponse "1") =
      .ok (sampleDomainInfoResponse "1") ∧
    create_domain_validate (sampleDomainCreateResponse "1") =
      .ok (sampleDomainCreateResponse "1") ∧
    delete_domain_validate (sampleStatusResponse "1") =
      .ok (sampleStatusResponse "1") ∧
    list_records_validate (sampleRecordListResponse "1") =
      .ok (sampleRecordListResponse "1") ∧
    get_record_validate (sampleRecordInfoResponse "1") =
      .ok (sampleRecordInfoResponse "1") ∧
    create_record_validate (sampleRecordCreateResponse "1") =
      .ok (sampleRecordCreateResponse "1") ∧
    modify_record_validate (sampleRecordModifyResponse "1") =
      .ok (sampleRecordModifyResponse "1") ∧
    delete_record_validate (sampleStatusResponse "1") =
      .ok (sampleStatusResponse "1") ∧
    set_record_status_validate (sampleRecordStatusResponse "1") =
      .ok (sampleRecordStatusResponse "1") := by
  have h := code1_returns_decoded_response (sampleDomainListResponse "1")
    (sampleDomainInfoResponse "1") (sampleDomainInfoResponse "1")
    (sampleDomainCreateResponse "1") (sampleStatusResponse "1")
    (sampleRecordListResponse "1") (sampleRecordInfoResponse "1")
    (sampleRecordCreateResponse "1") (sampleRecordModifyResponse "1")
    (sampleStatusResponse "1") (sampleRecordStatusResponse "1")
  exact ⟨h.1 rfl, h.2.1 rfl, h.2.2.1 rfl, h.2.2.2.1 rfl, h.2.2.2.2.1 rfl,
    h.2.2.2.2.2.1 rfl, h.2.2.2.2.2.2.1 rfl, h.2.2.2.2.2.2.2.1 rfl,
    h.2.2.2.2.2.2.2.2.1 rfl, h.2.2.2.2.2.2.2.2.2.1 rfl,
    h.2.2.2.2.2.2.2.2.2.2 rfl⟩

/-- C4: the modify-record and set-record-status responses decode whether
the provider sends the record id as a JSON string or as a JSON number,
and in either case the id is retrievable as text. -/
theorem record_id_polymorphic_decode (s nm : String) (n : Int) :
    decodeRecordModifyResponse
        (.obj [("status", .obj [("code", .str "1"), ("message", .str "OK")]),
          ("record", .obj [("id", .str s), ("name", .str nm)])]) =
      some ⟨⟨"1", "OK", none⟩, ⟨.str s, nm, none, none⟩⟩ ∧
    decodeRecordModifyResponse
        (.obj [("status", .obj [("code", .str "1"), ("message", .str "OK")]),
          ("record", .obj [("id", .num n), ("name", .str nm)])]) =
      some ⟨⟨"1", "OK", none⟩, ⟨.num n, nm, none, none⟩⟩ ∧
    decodeRecordStatusResponse
        (.obj [("status", .obj [("code", .str "1"), ("message", .str "OK")]),
          ("record", .obj [("id", .str s), ("name", .str nm)])]) =
      some ⟨⟨"1", "OK", none⟩, ⟨.str s, nm, none⟩⟩ ∧
    decodeRecordStatusResponse
        (.obj [("status", .obj [("code", .str "1"), ("message", .str "OK")]),
          ("record", .obj [("id", .num n), ("name", .str nm)])]) =
      some ⟨⟨"1", "OK", none⟩, ⟨.num n, nm, none⟩⟩ ∧
    jsonIdText (.str s) = some s ∧
    jsonIdText (.num n) = some (toString n) :=
  ⟨rfl, rfl, rfl, rfl, rfl, rfl⟩

/-- C5: for the operations with optional parameters, an omitted optional
parameter contributes no key to the request at all, and a supplied one
contributes `&key=value` after all required parameters. -/
theorem optional_params_omitted_or_appended
    (token domain_id record_id sub_domain record_type record_line value : String)
    (offset length mx ttl : Option Nat) :
    "offset" ∉ (list_domains_params none length).map Prod.fst ∧
    "length" ∉ (list_domains_params offset none).map Prod.fst ∧
    "offset" ∉ (list_records_params domain_id none length).map Prod.fst ∧
    "length" ∉ (list_records_params domain_id offset none).map Prod.fst ∧
    "mx" ∉ (create_record_params domain_id sub_domain record_type record_line
      value none ttl).map Prod.fst ∧
    "ttl" ∉ (create_record_params domain_id sub_domain record_type record_line
      value mx none).map Prod.fst ∧
    "mx" ∉ (modify_record_params domain_id record_id sub_domain record_type
      record_line value none ttl).map Prod.fst ∧
    "ttl" ∉ (modify_record_params domain_id record_id sub_domain record_type
      record_line value mx none).map Prod.fst ∧
    list_domains_body token offset length =
      "login_token=" ++ token ++ "&format=json" ++
        optSeg "offset" offset ++ optSeg "length" length ∧
    list_records_body token domain_id offset length =
      "login_token=" ++ token ++ "&format=json" ++ "&domain_id=" ++ domain_id ++
        optSeg "offset" offset ++ optSeg "length" length ∧
    create_record_body token domain_id sub_domain record_type record_line value
        mx ttl =
      "login_token=" ++ token ++ "&format=json" ++ "&domain_id=" ++ domain_id ++
        "&sub_domain=" ++ sub_domain ++ "&record_type=" ++ record_type ++
        "&record_line=" ++ record_line ++ "&value=" ++ value ++
        optSeg "mx" mx ++ optSeg "ttl" ttl ∧
    modify_record_body token domain_id record_id sub_domain record_type
        record_line value mx ttl =
      "login_token=" ++ token ++ "&format=json" ++ "&domain_id=" ++ domain_id ++
        "&record_id=" ++ record_id ++ "&sub_domain=" ++ sub_domain ++
        "&record_type=" ++ record_type ++ "&record_line=" ++ record_line ++
        "&value=" ++ value ++ optSeg "mx" mx ++ optSeg "ttl" ttl := by
  refine ⟨?_, ?_, ?_, ?_, ?_, ?_, ?_, ?_, ?_, ?_, ?_, ?_⟩
  · rcases length with _ | l <;> simp [list_domains_params]
  · rcases offset with _ | o <;> simp [list_domains_params]
  · rcases length with _ | l <;> simp [list_records_params]
  · rcases offset with _ | o <;> simp [list_records_params]
  · rcases ttl with _ | t <;> simp [create_record_params]
  · rcases mx with _ | m <;> simp [create_record_params]
  · rcases ttl with _ | t <;> simp [modify_record_params]
  · rcases mx with _ | m <;> simp [modify_record_params]
  · rcases offset with _ | o <;> rcases length with _ | l <;>
      (apply String.ext;
       simp [list_domains_body, build_form_params, list_domains_params, optSeg])
  · rcases offset with _ | o <;> rcases length with _ | l <;>
      (apply String.ext;
       simp [list_records_body, list_records_params, optSeg])
  · rcases mx with _ | m <;> rcases ttl with _ | t <;>
      (apply String.ext;
       simp [create_record_body, create_record_params, optSeg])
  · rcases mx with _ | m <;> rcases ttl with _ | t <;>
      (apply String.ext;
       simp [modify_record_body, modify_record_params, optSeg])

/-- C6: the request body of every operation is exactly
`login_token=<token>&format=json` followed by `&key=value` for each
non-absent parameter in the order the operation defines them. -/
theorem body_is_token_format_then_params
    (token domain_id record_id sub_domain record_type record_line value
      status domain : String)
    (offset length mx ttl : Option Nat) (ps : List (String × String)) :
    build_form_params token ps =
      "login_token=" ++ token ++ "&format=json" ++ joinParams ps ∧
    list_domains_body token offset length =
      "login_token=" ++ token ++ "&format=json" ++
        joinParams (list_domains_params offset length) ∧
    get_domain_body token domain_id =
      "login_token=" ++ token ++ "&format=json" ++
        joinParams [("domain_id", domain_id)] ∧
    get_domain_by_name_body token domain =
      "login_token=" ++ token ++ "&format=json" ++
        joinParams [("domain", domain)] ∧
    create_domain_body token domain =
      "login_token=" ++ token ++ "&format=json" ++
        joinParams [("domain", domain)] ∧
    delete_domain_body token domain_id =
      "login_token=" ++ token ++ "&format=json" ++
        joinParams [("domain_id", domain_id)] ∧
    list_records_body token domain_id offset length =
      "login_token=" ++ token ++ "&format=json" ++
        joinParams (list_records_params domain_id offset length) ∧
    get_record_body token domain_id record_id =
      "login_token=" ++ token ++ "&format=json" ++
        joinParams [("domain_id", domain_id), ("record_id", record_id)] ∧
    create_record_body token domain_id sub_domain record_type record_line value
        mx ttl =
      "login_token=" ++ token ++ "&format=json" ++
        joinParams (create_record_params domain_id sub_domain record_type
          record_line value mx ttl) ∧
    modify_record_body token domain_id record_id sub_domain record_type
        record_line value mx ttl =
      "login_token=" ++ token ++ "&format=json" ++
        joinParams (modify_record_params domain_id record_id sub_domain
          record_type record_line value mx ttl) ∧
    delete_record_body token domain_id record_id =
      "login_token=" ++ token ++ "&format=json" ++
        joinParams [("domain_id", domain_id), ("record_id", record_id)] ∧
    set_record_status_body token domain_id record_id status =
      "login_token=" ++ token ++ "&format=json" ++
        joinParams [("domain_id", domain_id), ("record_id", record_id),
          ("status", status)] := by
  refine ⟨build_form_params_eq token ps, build_form_params_eq token _,
    build_form_params_eq token _, build_form_params_eq token _,
    build_form_params_eq token _, build_form_params_eq token _,
    ?_, build_form_params_eq token _, ?_, ?_,
    build_form_params_eq token _, build_form_params_eq token _⟩
  · rw [list_records_body, foldl_form_eq]
  · rw [create_record_body, foldl_form_eq]
  · rw [modify_record_body, foldl_form_eq]

/-- C7: `Domain::get_ttl` returns 600 when the `ttl` field is absent or
unparsable and the parsed value otherwise; `Record::get_ttl` returns the
caller-supplied default when the field is absent. -/
theorem ttl_defaults (d : Domain) (r : Record) (s : String)
    (n default_ttl : Nat) :
    (d.ttl = none → d.get_ttl = 600) ∧
    (d.ttl = some s → parse_u64 s = none → d.get_ttl = 600) ∧
    (d.ttl = some s → parse_u64 s = some n → d.get_ttl = n) ∧
    (r.ttl = none → r.get_ttl default_ttl = default_ttl) := by
  refine ⟨fun h => ?_, fun h hp => ?_, fun h hp => ?_, fun h => ?_⟩
  · simp [Domain.get_ttl, h]
  · simp [Domain.get_ttl, h, hp]
  · simp [Domain.get_ttl, h, hp]
  · simp [Record.get_ttl, h]

/-- Witness for C7 at concrete domains with absent, unparsable and
parsable `ttl` fields, and a record with an absent `ttl` field. -/
theorem ttl_defaults_witness :
    (sampleDomainTtl none).get_ttl = 600 ∧
    (sampleDomainTtl (some "abc")).get_ttl = 600 ∧
    (sampleDomainTtl (some "300")).get_ttl = 300 ∧
    (sampleRecord none none).get_ttl 120 = 120 := by
  have h1 := ttl_defaults (sampleDomainTtl none) (sampleRecord none none)
    "x" 0 120
  have h2 := ttl_defaults (sampleDomainTtl (some "abc"))
    (sampleRecord none none) "abc" 0 120
  have h3 := ttl_defaults (sampleDomainTtl (some "300"))
    (sampleRecord none none) "300" 300 120
  exact ⟨h1.1 rfl, h2.2.1 rfl rfl, h3.2.2.1 rfl rfl, h1.2.2.2 rfl⟩

/-- C8: `Record::get_type` returns "A" when the `type` field is absent and
the value of the field when present. -/
theorem record_type_defaults_to_A (r : Record) (s : String) :
    (r.record_type = none → r.get_type = "A") ∧
    (r.record_type = some s → r.get_type = s) := by
  refine ⟨fun h => ?_, fun h => ?_⟩ <;> simp [Record.get_type, h]

/-- Witness for C8 at concrete records without and with a `type` field. -/
theorem record_type_defaults_to_A_witness :
    (sampleRecord none none).get_type = "A" ∧
    (sampleRecord none (some "MX")).get_type = "MX" :=
  ⟨(record_type_defaults_to_A (sampleRecord none none) "MX").1 rfl,
    (record_type_defaults_to_A (sampleRecord none (some "MX")) "MX").2 rfl⟩

/-- C9: the forced-empty records guarantee applies only to the code-"10"
path: a `Record.List` response with a `null` or absent `records` field
decodes with `records = none`, and with status code "1" the operation
returns it unchanged, so `records` stays `none` rather than `some []`. -/
theorem code1_keeps_absent_records (c m : String) (r : RecordListResponse)
    (h : r.status.code = "1") (hrec : r.records = none) :
    decodeRecordListResponse
        (.obj [("status", .obj [("code", .str c), ("message", .str m)]),
          ("records", .null)]) = some ⟨⟨c, m, none⟩, none, none, none⟩ ∧
    decodeRecordListResponse
        (.obj [("status", .obj [("code", .str c), ("message", .str m)])]) =
      some ⟨⟨c, m, none⟩, none, none, none⟩ ∧
    list_records_validate r = .ok r ∧ r.records = none := by
  refine ⟨rfl, rfl, ?_, hrec⟩
  simp [list_records_validate, h]

/-- Witness for C9 at a concrete code-"1" response with no `records`
field. -/
theorem code1_keeps_absent_records_witness :
    decodeRecordListResponse
        (.obj [("status", .obj [("code", .str "1"), ("message", .str "OK")]),
          ("records", .null)]) =
      some ⟨⟨"1", "OK", none⟩, none, none, none⟩ ∧
    decodeRecordListResponse
        (.obj [("status", .obj [("code", .str "1"), ("message", .str "OK")])]) =
      some ⟨⟨"1", "OK", none⟩, none, none, none⟩ ∧
    list_records_validate (sampleRecordListResponse "1") =
      .ok (sampleRecordListResponse "1") ∧
    (sampleRecordListResponse "1").records = none :=
  code1_keeps_absent_records "1" "OK" (sampleRecordListResponse "1") rfl rfl

/-- C10: `Record::get_ttl` and `RecordInfo::get_ttl` return the
caller-supplied default when the `ttl` field is present but unparsable,
exactly as when it is absent; both accessors are total. -/
theorem unparsable_ttl_uses_default (r : Record) (ri : RecordInfo)
    (s t : String) (default_ttl : Nat) :
    (r.ttl = some s → parse_u64 s = none →
      r.get_ttl default_ttl = default_ttl) ∧
    (ri.ttl = some t → parse_u64 t = none →
      ri.get_ttl default_ttl = default_ttl) ∧
    (r.ttl = none → r.get_ttl default_ttl = default_ttl) ∧
    (ri.ttl = none → ri.get_ttl default_ttl = default_ttl) := by
  refine ⟨fun h hp => ?_, fun h hp => ?_, fun h => ?_, fun h => ?_⟩
  · simp [Record.get_ttl, h, hp]
  · simp [RecordInfo.get_ttl, h, hp]
  · simp [Record.get_ttl, h]
  · simp [RecordInfo.get_ttl, h]

/-- Witness for C10 at concrete records whose `ttl` field holds
non-numeric text or is absent. -/
theorem unparsable_ttl_uses_default_witness :
    (sampleRecord (some "12abc") none).get_ttl 42 = 42 ∧
    (sampleRecordInfo (some "12abc")).get_ttl 42 = 42 ∧
    (sampleRecord none none).get_ttl 42 = 42 ∧
    (sampleRecordInfo none).get_ttl 42 = 42 := by
  have h1 := unparsable_ttl_uses_default (sampleRecord (some "12abc") none)
    (sampleRecordInfo (some "12abc")) "12abc" "12abc" 42
  have h2 := unparsable_ttl_uses_default (sampleRecord none none)
    (sampleRecordInfo none) "x" "x" 42
  exact ⟨h1.1 rfl rfl, h1.2.1 rfl rfl, h2.2.2.1 rfl, h2.2.2.2 rfl⟩

end Dnspod
